import Mathlib

/-!
Verification of the personal-assistant agent service
(`main.py`, `backend/database/db.py`, `backend/services/agent_service/agent.py`,
`backend/services/tools/gmail_tool.py`) against its specification.

The Python modules are shallowly embedded: module-level mutable state
(`_IN_MEMORY_STORE`, the durable PostgreSQL table, `GMAIL_TOOLS_CACHE`) becomes
explicit state threaded through the functions, exceptions become `Except`, and
every external fallible collaborator (the durable backend, the LangChain agent
invocation, Gmail setup) becomes an explicit oracle parameter.
-/

/-- One conversational turn, as stored in chat history: a dict with a
`role` key (`"user"` or `"assistant"`) and a `content` key. -/
structure Message where
  role : String
  content : String
deriving DecidableEq, Repr

/-- The in-process fallback store `_IN_MEMORY_STORE : {user_id: [messages]}`
of `db.py`, modelled as an association list keyed by `user_id` and observed
only through key lookup (as a Python dict is). -/
abbrev Store := List (String × List Message)

/-- Key lookup in an association list keyed by strings; models `dict.get` /
`SELECT ... WHERE user_id=%s LIMIT 1` (keys are unique in both). -/
def lookupStr {α : Type} (m : List (String × α)) (k : String) : Option α :=
  match m with
  | [] => none
  | (k', v) :: rest => if k' = k then some v else lookupStr rest k

/-- Remove a key from an association list; models `dict.pop(key, None)` and
`DELETE FROM chat_history WHERE user_id=%s`. -/
def removeKey {α : Type} (m : List (String × α)) (k : String) : List (String × α) :=
  m.filter (fun p => p.1 ≠ k)

/-- Bind a key in an association list; models `dict[key] = value` and the
`INSERT ... ON CONFLICT (user_id) DO UPDATE` upsert (both leave exactly one
binding for the key, which is all `lookupStr` observes). -/
def setKey {α : Type} (m : List (String × α)) (k : String) (v : α) : List (String × α) :=
  (k, v) :: removeKey m k

theorem lookupStr_setKey {α : Type} (m : List (String × α)) (k : String) (v : α) :
    lookupStr (setKey m k v) k = some v := by
  simp [setKey, lookupStr]

/-- The durable PostgreSQL backend of `db.py`, as the code can observe it:
`unavailable` is `_can_use_db() = False` (psycopg2 missing or blank
`POSTGRES_URL`); `failing` is a configured backend on which every operation
raises (connection refused etc.); `table rows` is a working `chat_history`
table, one row per `user_id` (the `UNIQUE` constraint). -/
inductive Durable where
  | unavailable : Durable
  | failing : Durable
  | table : List (String × List Message) → Durable
deriving DecidableEq, Repr

/-- The whole storage state of `db.py`: the in-process dict plus the durable
backend. -/
structure DbState where
  mem : Store
  durable : Durable
deriving DecidableEq, Repr

/-- Embedding of `db.py` `load_chat_history(user_id)`: without a usable DB it
returns `list(_IN_MEMORY_STORE.get(user_id, []))`; with a failing DB the
`except` branch returns the same in-memory fallback; with a working DB it
returns the row's `chat_history` or `[]` when no row matches. It is a total
function: the Python function catches every exception (never raises). -/
def load_chat_history (st : DbState) (user_id : String) : List Message :=
  match st.durable with
  | .unavailable => (lookupStr st.mem user_id).getD []
  | .failing => (lookupStr st.mem user_id).getD []
  | .table rows =>
      match lookupStr rows user_id with
      | some h => h
      | none => []

/-- Embedding of `db.py` `save_chat_history(user_id, chat_history)`: it always
updates the in-memory copy first; then, when the DB is usable, it attempts the
upsert, and a raise is swallowed (`failing` leaves only the in-memory write).
Total: the Python function never raises. -/
def save_chat_history (st : DbState) (user_id : String) (chat_history : List Message) :
    DbState :=
  let mem' := setKey st.mem user_id chat_history
  match st.durable with
  | .unavailable => { mem := mem', durable := .unavailable }
  | .failing => { mem := mem', durable := .failing }
  | .table rows => { mem := mem', durable := .table (setKey rows user_id chat_history) }

/-- Embedding of `db.py` `delete_chat_history(user_id=None)`: `some u` pops one
key from the in-memory dict and deletes that user's row; `none` clears the
whole dict and runs `DELETE FROM chat_history` (every row). A durable failure
is reported in the returned summary only (not modelled) and does not undo the
in-memory clear. -/
def delete_chat_history (st : DbState) (user_id : Option String) : DbState :=
  let mem' := match user_id with
    | some u => removeKey st.mem u
    | none => ([] : Store)
  match st.durable with
  | .unavailable => { mem := mem', durable := .unavailable }
  | .failing => { mem := mem', durable := .failing }
  | .table rows =>
      { mem := mem',
        durable := .table (match user_id with
          | some u => removeKey rows u
          | none => []) }

theorem load_after_save (st : DbState) (uid : String) (h : List Message) :
    load_chat_history (save_chat_history st uid h) uid = h := by
  cases st with
  | mk mem dur =>
      cases dur <;> simp [load_chat_history, save_chat_history, lookupStr_setKey]

/-- A Python value as the output-normalization code of `response_to_json`
distinguishes it (`isinstance(..., str)`, `isinstance(..., list)`,
`isinstance(..., dict)`, anything else). Each non-string constructor carries
the text Python's `str()` would produce for it, so the embedding does not have
to reimplement `repr`. -/
inductive PyVal where
  | str : String → PyVal
  | dict : List (String × PyVal) → String → PyVal
  | list : List PyVal → String → PyVal
  | other : String → PyVal

/-- Python `str(v)`: a string is itself; every other value yields its carried
textual representation. -/
def pyStr : PyVal → String
  | .str s => s
  | .dict _ text => text
  | .list _ text => text
  | .other text => text

/-- The per-item mapping inside the list branch of the normalization:
`str(item.get("text", "")) if isinstance(item, dict) else str(item)`. -/
def fragment_text : PyVal → String
  | .dict entries _ => pyStr ((lookupStr entries "text").getD (.str ""))
  | v => pyStr v

/-- Python `sep.join(parts)`: empty for no parts, else the first part with
`sep` and each further part folded on. -/
def str_join (sep : String) (parts : List String) : String :=
  match parts with
  | [] => ""
  | p :: rest => rest.foldl (fun acc q => acc ++ sep ++ q) p

/-- Embedding of the output normalization of `response_to_json`
(`agent.py` lines 152-159): a plain string is kept; a list is flattened with
`" ".join(str(item.get("text", "")) if isinstance(item, dict) else str(item)
for item in raw_output)`; anything else becomes `str(raw_output)`. -/
def normalize_raw_output : PyVal → String
  | .str s => s
  | .list items _ => str_join " " (items.map fragment_text)
  | v => pyStr v

/-- The normalization that claim C7 states, following the spec words: a list
of fragments is flattened by CONCATENATING each fragment's text in order
(no separator). -/
def normalize_concat_spec : PyVal → String
  | .str s => s
  | .list items _ => String.join (items.map fragment_text)
  | v => pyStr v

/-- Joining with a single space separator, written structurally from the
amended wording of C7 (independently of `str_join`). -/
def join_with_space : List String → String
  | [] => ""
  | [s] => s
  | s :: s2 :: rest => s ++ " " ++ join_with_space (s2 :: rest)

/-- The normalization the amended claim C7 states: fragments joined with a
single space separator, in original order. -/
def normalize_space_join_spec : PyVal → String
  | .str s => s
  | .list items _ => join_with_space (items.map fragment_text)
  | v => pyStr v

/-- Observable side effects of one turn of the orchestrator, recorded in
order: a chat-history load, an agent/model invocation
(`agent_executor.ainvoke`), a chat-history save. -/
inductive Effect where
  | loadHistory : Effect
  | invokeAgent : Effect
  | saveHistory : Effect
deriving DecidableEq, Repr

/-- The structured result of one orchestration turn, i.e. the dict
`response_to_json` returns (`QueryResponse` fields). The success dict carries
no `error` key, which pydantic defaults to `None`: modelled as `none`. -/
structure TurnResult where
  user_id : String
  question : String
  output : String
  chat_history_length : Nat
  error : Option String
deriving DecidableEq, Repr

/-- `formatted_history` of `response_to_json`: the loaded history re-expressed
as `{"role": msg["role"], "content": msg["content"]}` dicts. -/
def formatted_history (history : List Message) : List Message :=
  history.map (fun msg => { role := msg.role, content := msg.content })

/-- Embedding of `response_to_json(user_query, user_id)` of `agent.py`.

Explicit oracles stand for the fallible collaborators:
`toolSetup` is the tool-list construction before the history load
(`datetime_tool()`, `duckduckgo_search_tool()`, `get_cached_gmail_tools()`);
`agent` is everything from prompt/LLM construction through
`agent_executor.ainvoke`, returning the value of `response.get("output", "")`
(a missing key is the default `.str ""`), or the exception message it raises.

The whole body sits in `try/except Exception`, so the function is total (it
never raises); `existing_history` is `[]` until the load runs, so a failure
before the load reports `chat_history_length = 0`. The `except` branch returns
the fixed fallback text and does not save. -/
def response_to_json (toolSetup : Except String Unit)
    (agent : List Message → Except String PyVal)
    (st : DbState) (user_query : String) (user_id : String) :
    TurnResult × DbState × List Effect :=
  match toolSetup with
  | .error e =>
      ({ user_id := user_id, question := user_query,
         output := "❌ Sorry, something went wrong. Please try again later.",
         chat_history_length := 0, error := some e }, st, [])
  | .ok _ =>
      let existing_history := load_chat_history st user_id
      match agent (formatted_history existing_history) with
      | .error e =>
          ({ user_id := user_id, question := user_query,
             output := "❌ Sorry, something went wrong. Please try again later.",
             chat_history_length := existing_history.length, error := some e },
           st, [.loadHistory, .invokeAgent])
      | .ok response_output =>
          let raw_output := normalize_raw_output response_output
          let new_history := existing_history
            ++ [{ role := "user", content := user_query },
                { role := "assistant", content := raw_output }]
          ({ user_id := user_id, question := user_query, output := raw_output,
             chat_history_length := new_history.length, error := none },
           save_chat_history st user_id new_history,
           [.loadHistory, .invokeAgent, .saveHistory])

/-- The body of a `POST /query` request (`QueryRequest` in `main.py`). -/
structure QueryRequest where
  user_id : String
  question : String
deriving DecidableEq, Repr

/-- What the `/query` route hands back to FastAPI: a `QueryResponse` value, or
an `HTTPException` with a status code and a detail string. -/
inductive AskResult where
  | ok : TurnResult → AskResult
  | httpError : Nat → String → AskResult
deriving DecidableEq, Repr

/-- Python `str()` of a starlette/FastAPI `HTTPException`:
`f"{status_code}: {detail}"`. -/
def http_exception_str (status_code : Nat) (detail : String) : String :=
  toString status_code ++ ": " ++ detail

/-- Python `s.strip()`: drop whitespace from both ends. -/
def py_strip (s : String) : String :=
  ⟨((s.data.dropWhile Char.isWhitespace).reverse.dropWhile Char.isWhitespace).reverse⟩

/-- Embedding of the `/query` handler `ask_database(request, token)` of
`main.py`. The token is an optional query parameter (`token: str=None`)
compared with `!=` against `API_TOKEN`; the question and user id must be
non-blank after `strip()`; the literal question `"/reset"` saves an empty
history and returns without running the agent.

The whole body sits in `try: ... except Exception as e: raise
HTTPException(status_code=500, detail=str(e))`, and FastAPI's `HTTPException`
IS an `Exception` — so the `HTTPException(401)` and `HTTPException(400)`
raised inside the `try` are caught by that blanket clause and re-raised as
status 500 with `str(e)` as the detail. The embedding reproduces this
faithfully. The third component records which store/agent effects ran. -/
def ask_database (token : Option String) (api_token : String)
    (toolSetup : Except String Unit) (agent : List Message → Except String PyVal)
    (st : DbState) (request : QueryRequest) :
    AskResult × DbState × List Effect :=
  if token ≠ some api_token then
    (.httpError 500 (http_exception_str 401 "Unauthorized."), st, [])
  else if py_strip request.question = "" then
    (.httpError 500 (http_exception_str 400 "Question cannot be empty."), st, [])
  else if py_strip request.user_id = "" then
    (.httpError 500 (http_exception_str 400 "User ID cannot be empty."), st, [])
  else if request.question = "/reset" then
    (.ok { user_id := request.user_id, question := request.question,
           output := "🗑️ Chat history has been reset.",
           chat_history_length := 0, error := none },
     save_chat_history st request.user_id [], [.saveHistory])
  else
    match response_to_json toolSetup agent st request.question request.user_id with
    | (result, st', effects) => (.ok result, st', effects)

/-- Outcome of the one-time Gmail setup in `get_cached_gmail_tools`
(`get_gmail_credentials` + `build_resource_service` + `GmailToolkit` +
`toolkit.get_tools()`): the produced tool list, or the raised exception's
message. Tools are identified by name. -/
inductive GmailSetup where
  | ok : List String → GmailSetup
  | fail : String → GmailSetup
deriving DecidableEq, Repr

/-- Embedding of `gmail_tool.py` `get_cached_gmail_tools()`. The module-level
`GMAIL_TOOLS_CACHE` (initially `None`) is threaded explicitly: input `cache`
is its value before the call; the result is the returned tool list, the cache
afterwards, and whether setup ran during this call. `if GMAIL_TOOLS_CACHE is
not None: return GMAIL_TOOLS_CACHE` makes any cached value — including the
empty list cached by the `except` branch — short-circuit setup; the `except
Exception` branch makes the function total (it never raises). -/
def get_cached_gmail_tools (setup : GmailSetup) (cache : Option (List String)) :
    List String × Option (List String) × Bool :=
  match cache with
  | some tools => (tools, some tools, false)
  | none =>
      match setup with
      | .ok tools => (tools, some tools, true)
      | .fail _ => ([], some [], true)

/-- Embedding of the shutdown half of the `lifespan` context of `main.py`:
after `yield`, it calls `delete_chat_history()` with no argument. -/
def lifespan_shutdown (st : DbState) : DbState :=
  delete_chat_history st none

/-- Modelled from the spec (§4.4 Agent Loop): the reasoning step the model
returns on one invocation — a final answer (a possibly structured value) or a
batch of tool-call requests `(name, argument)`. The loop body itself is
LangChain's `AgentExecutor`, library code absent from `src/`; only its
configuration (`max_iterations=5`) is in `agent.py`. -/
inductive ModelStep where
  | finalAnswer : PyVal → ModelStep
  | toolCalls : List (String × String) → ModelStep

/-- Modelled from the spec: one scratch-region entry
`(tool_name, argument, result_or_error)`. -/
structure ScratchEntry where
  tool_name : String
  argument : String
  result_or_error : String
deriving DecidableEq, Repr

/-- Modelled from the spec: terminal states of the Agent Loop state machine.
`exhausted` stands for budget exhaustion (the spec synthesizes a best-effort
fallback answer there); `failed` for an unrecoverable exception, not reachable
in this model because tool execution is total here. -/
inductive LoopResult where
  | answered : String → LoopResult
  | exhausted : LoopResult
  | failed : String → LoopResult
deriving DecidableEq, Repr

/-- Modelled from the spec: resolve a requested tool by name and execute it;
an unknown name folds an error string back into the scratch region instead of
aborting the turn. -/
def exec_tool_call (tools : List (String × (String → String)))
    (c : String × String) : ScratchEntry :=
  match lookupStr tools c.1 with
  | some f => { tool_name := c.1, argument := c.2, result_or_error := f c.2 }
  | none => { tool_name := c.1, argument := c.2,
              result_or_error := "UnknownToolError: " ++ c.1 }

/-- Modelled from the spec: the Agent Loop of §4.4, `while iteration < budget`
with the fuel argument standing for `budget - iteration` (so recursion is
structural). Each pass invokes the model on the current scratch region; a
final answer is normalized and ends in `answered` with the iteration count at
which it arrived; tool calls are executed, appended to scratch, and the
iteration counter incremented; running out of budget ends in `exhausted`.
Returns the terminal state and the number of the iteration at which the loop
stopped. -/
def agent_loop_go (model : List ScratchEntry → ModelStep)
    (tools : List (String × (String → String))) :
    Nat → Nat → List ScratchEntry → LoopResult × Nat
  | 0, iteration, _ => (.exhausted, iteration)
  | fuel + 1, iteration, scratch =>
      match model scratch with
      | .finalAnswer t => (.answered (normalize_raw_output t), iteration)
      | .toolCalls cs =>
          agent_loop_go model tools fuel (iteration + 1)
            (scratch ++ cs.map (exec_tool_call tools))

/-- Modelled from the spec: a full Agent Loop run with the budget of
`max_iterations=5` from `agent.py`, starting at iteration 0 with an empty
scratch region. -/
def agent_loop (model : List ScratchEntry → ModelStep)
    (tools : List (String × (String → String))) : LoopResult × Nat :=
  agent_loop_go model tools 5 0 []

theorem agent_loop_go_count_le (model : List ScratchEntry → ModelStep)
    (tools : List (String × (String → String))) :
    ∀ (fuel iteration : Nat) (scratch : List ScratchEntry),
      (agent_loop_go model tools fuel iteration scratch).2 ≤ iteration + fuel := by
  intro fuel
  induction fuel with
  | zero => intro iteration scratch; simp [agent_loop_go]
  | succ n ih =>
      intro iteration scratch
      rw [agent_loop_go]
      cases model scratch with
      | finalAnswer t => simp
      | toolCalls cs =>
          calc (agent_loop_go model tools n (iteration + 1)
                  (scratch ++ cs.map (exec_tool_call tools))).2
              ≤ (iteration + 1) + n := ih (iteration + 1) _
            _ = iteration + (n + 1) := by omega

theorem agent_loop_go_all_tool_calls (model : List ScratchEntry → ModelStep)
    (tools : List (String × (String → String)))
    (hm : ∀ scratch, ∃ calls, model scratch = .toolCalls calls) :
    ∀ (fuel iteration : Nat) (scratch : List ScratchEntry),
      agent_loop_go model tools fuel iteration scratch = (.exhausted, iteration + fuel) := by
  intro fuel
  induction fuel with
  | zero => intro iteration scratch; simp [agent_loop_go]
  | succ n ih =>
      intro iteration scratch
      obtain ⟨calls, hc⟩ := hm scratch
      rw [agent_loop_go, hc]
      show agent_loop_go model tools n (iteration + 1)
          (scratch ++ calls.map (exec_tool_call tools)) = (.exhausted, iteration + (n + 1))
      rw [ih (iteration + 1) _]
      congr 1
      omega

theorem str_join_space_foldl (t : List String) :
    ∀ p : String, t.foldl (fun acc q => acc ++ " " ++ q) p = join_with_space (p :: t) := by
  induction t with
  | nil => intro p; simp [join_with_space]
  | cons q t ih =>
      intro p
      rw [List.foldl_cons, ih (p ++ " " ++ q)]
      cases t with
      | nil => simp [join_with_space]
      | cons r t' => simp [join_with_space, String.append_assoc]

theorem str_join_space_eq_join_with_space (l : List String) :
    str_join " " l = join_with_space l := by
  cases l with
  | nil => rfl
  | cons p rest => rw [str_join, str_join_space_foldl rest p]

/-- Claim C5: when the durable backend is unavailable or every durable
operation fails, `save_chat_history` followed by `load_chat_history` for the
same `user_id` within the same process returns exactly the just-saved message
sequence; `load_chat_history` (a total function, so it never raises) returns
the empty sequence for an unknown `user_id`, and on durable-backend error it
returns the last in-process copy. -/
theorem store_fallback_continuity (st : DbState) (uid : String) (h : List Message)
    (hdb : st.durable = Durable.unavailable ∨ st.durable = Durable.failing) :
    load_chat_history (save_chat_history st uid h) uid = h
    ∧ (lookupStr st.mem uid = none → load_chat_history st uid = [])
    ∧ load_chat_history st uid = (lookupStr st.mem uid).getD [] := by
  refine ⟨load_after_save st uid h, ?_, ?_⟩
  · intro hnone
    rcases hdb with hd | hd <;> simp [load_chat_history, hd, hnone]
  · rcases hdb with hd | hd <;> simp [load_chat_history, hd]

theorem store_fallback_continuity_witness :
    load_chat_history
        (save_chat_history { mem := [], durable := Durable.failing } "u"
          [{ role := "user", content := "hi" }]) "u"
      = [{ role := "user", content := "hi" }]
    ∧ (lookupStr ({ mem := [], durable := Durable.failing } : DbState).mem "u" = none →
        load_chat_history { mem := [], durable := Durable.failing } "u" = [])
    ∧ load_chat_history { mem := [], durable := Durable.failing } "u"
      = (lookupStr ({ mem := [], durable := Durable.failing } : DbState).mem "u").getD [] :=
  store_fallback_continuity { mem := [], durable := Durable.failing } "u"
    [{ role := "user", content := "hi" }] (Or.inr rfl)

/-- Claim C6: the per-turn orchestration function `response_to_json` is total
(never raises to its caller — in the source the entire body is wrapped in
`try/except Exception`, and here it is a total function); for every input it
returns a structured result echoing the user id and question, and whenever the
optional `error` field is populated the answer text is the fixed polite
fallback string, a constant independent of the failure (so no internal error
text leaks into the answer; the diagnostic sits only in `error`). -/
theorem response_to_json_total_polite_fallback
    (toolSetup : Except String Unit) (agent : List Message → Except String PyVal)
    (st : DbState) (q uid : String) :
    (response_to_json toolSetup agent st q uid).1.user_id = uid
    ∧ (response_to_json toolSetup agent st q uid).1.question = q
    ∧ ((response_to_json toolSetup agent st q uid).1.error = none
       ∨ ((response_to_json toolSetup agent st q uid).1.output
            = "❌ Sorry, something went wrong. Please try again later."
          ∧ ∃ e, (response_to_json toolSetup agent st q uid).1.error = some e)) := by
  cases toolSetup with
  | error e => exact ⟨rfl, rfl, Or.inr ⟨rfl, e, rfl⟩⟩
  | ok u =>
      cases hag : agent (formatted_history (load_chat_history st uid)) with
      | error e => simp [response_to_json, hag]
      | ok v => simp [response_to_json, hag]

/-- Claim C7 (counterexample): the claim says a sequence of fragments is
flattened by concatenating each fragment's text in original order, but the
code joins the fragment texts with `" ".join`, inserting a space separator:
on the two-fragment list `["a", "b"]` the code produces `"a b"` while
concatenation gives `"ab"`. -/
theorem normalize_concat_claim_cex :
    normalize_raw_output (.list [.str "a", .str "b"] "") = "a b"
    ∧ normalize_concat_spec (.list [.str "a", .str "b"] "") = "ab"
    ∧ ("a b" : String) ≠ "ab" := by
  refine ⟨rfl, rfl, by decide⟩

/-- Claim C7 (amended): for every model output, normalization yields a single
text string: a plain string is returned as-is; a sequence of fragments is
flattened by joining each fragment's text with a single space separator in
original order (a mapping fragment contributes the string coercion of its
`"text"` entry, empty when absent; any non-text fragment is coerced to its
textual representation); any other shape is coerced to its string
representation. -/
theorem normalize_raw_output_eq_space_join_spec (raw : PyVal) :
    normalize_raw_output raw = normalize_space_join_spec raw := by
  cases raw with
  | str s => rfl
  | list items text =>
      simp [normalize_raw_output, normalize_space_join_spec,
        str_join_space_eq_join_with_space]
  | dict entries text => rfl
  | other text => rfl

/-- Claim C9: the Gmail tool accessor never raises past its boundary (it is a
total function; the source wraps setup in `except Exception`) and initializes
at most once per process: starting from an empty cache the first call runs
setup; the second call — whatever its setup oracle would do — does not run
setup again and returns exactly the cached result; a failed first setup caches
and returns the empty tool set, a successful one caches and returns its tool
list. -/
theorem gmail_tools_cached_once (s1 s2 : GmailSetup) :
    (get_cached_gmail_tools s1 none).2.2 = true
    ∧ (get_cached_gmail_tools s2 (get_cached_gmail_tools s1 none).2.1).2.2 = false
    ∧ (get_cached_gmail_tools s2 (get_cached_gmail_tools s1 none).2.1).1
        = (get_cached_gmail_tools s1 none).1
    ∧ (get_cached_gmail_tools s2 (get_cached_gmail_tools s1 none).2.1).2.1
        = (get_cached_gmail_tools s1 none).2.1
    ∧ (∀ e, s1 = .fail e → (get_cached_gmail_tools s1 none).1 = [])
    ∧ (∀ tools, s1 = .ok tools → (get_cached_gmail_tools s1 none).1 = tools) := by
  cases s1 <;> simp [get_cached_gmail_tools]

theorem gmail_tools_cached_once_witness :
    (get_cached_gmail_tools (.fail "no credentials") none).1 = []
    ∧ (get_cached_gmail_tools (.ok ["gmail_send"])
        (get_cached_gmail_tools (.fail "no credentials") none).2.1).1 = [] := by
  obtain ⟨-, -, hsame, -, hfail, -⟩ :=
    gmail_tools_cached_once (.fail "no credentials") (.ok ["gmail_send"])
  have h1 := hfail "no credentials" rfl
  exact ⟨h1, by rw [hsame, h1]⟩

/-- Claim C10: on clean shutdown the lifespan hook calls the history delete
operation with no `user_id`; this clears every user's history from the
in-process store, and when the durable backend is configured and working it
deletes every record of the `chat_history` table — afterwards every user's
history reads back empty. -/
theorem lifespan_shutdown_clears_all_history (st : DbState) :
    (lifespan_shutdown st).mem = []
    ∧ (∀ rows, st.durable = Durable.table rows →
        (lifespan_shutdown st).durable = Durable.table [])
    ∧ ∀ uid, load_chat_history (lifespan_shutdown st) uid = [] := by
  cases st with
  | mk mem dur =>
      cases dur <;>
        simp [lifespan_shutdown, delete_chat_history, load_chat_history, lookupStr]

theorem lifespan_shutdown_clears_all_history_witness :
    (lifespan_shutdown
        ⟨[("u", [⟨"user", "hi"⟩])], Durable.table [("u", [⟨"user", "hi"⟩])]⟩).durable
      = Durable.table []
    ∧ load_chat_history
        (lifespan_shutdown
          ⟨[("u", [⟨"user", "hi"⟩])], Durable.table [("u", [⟨"user", "hi"⟩])]⟩) "u"
      = [] :=
  ⟨(lifespan_shutdown_clears_all_history _).2.1 _ rfl,
   (lifespan_shutdown_clears_all_history _).2.2 "u"⟩

/-- Claim C1 (code bug): a request to the query endpoint whose auth token
differs from the configured shared-secret token IS rejected before any history
load, tool invocation, or model invocation (the effect trace is empty and the
storage state is untouched) — but the rejection status is 500, not the
401-equivalent the claim and the endpoint's own docstring promise: the
`HTTPException(status_code=401)` raised inside the `try` block is caught by
the blanket `except Exception` clause and re-raised as
`HTTPException(status_code=500, detail=str(e))`. -/
theorem ask_database_bad_token_rejected_500
    (token : Option String) (api_token : String)
    (toolSetup : Except String Unit) (agent : List Message → Except String PyVal)
    (st : DbState) (request : QueryRequest)
    (htok : token ≠ some api_token) :
    ask_database token api_token toolSetup agent st request
      = (.httpError 500 (http_exception_str 401 "Unauthorized."), st, []) := by
  simp [ask_database, htok]

theorem ask_database_bad_token_rejected_500_witness :
    ask_database none "123456" (Except.ok ()) (fun _ => Except.ok (PyVal.str "hi"))
        ⟨[], Durable.unavailable⟩ ⟨"u", "hello"⟩
      = (.httpError 500 (http_exception_str 401 "Unauthorized."),
         ⟨[], Durable.unavailable⟩, []) :=
  ask_database_bad_token_rejected_500 none "123456" (Except.ok ())
    (fun _ => Except.ok (PyVal.str "hi")) ⟨[], Durable.unavailable⟩ ⟨"u", "hello"⟩
    (by decide)

/-- Claim C2 (counterexample): with an empty store and an agent invocation
that fails, the orchestrator returns the failure result but calls no save —
the store it returns is unchanged and a subsequent load for the user is still
empty, so the user's question "what time is it" was NOT persisted, contrary to
the claim. -/
theorem agent_failure_question_unpersisted_cex :
    response_to_json (Except.ok ()) (fun _ => Except.error "model down")
        ⟨[], Durable.unavailable⟩ "what time is it" "u1"
      = ({ user_id := "u1", question := "what time is it",
           output := "❌ Sorry, something went wrong. Please try again later.",
           chat_history_length := 0, error := some "model down" },
         ⟨[], Durable.unavailable⟩, [.loadHistory, .invokeAgent])
    ∧ load_chat_history
        (response_to_json (Except.ok ()) (fun _ => Except.error "model down")
          ⟨[], Durable.unavailable⟩ "what time is it" "u1").2.1 "u1"
      = [] :=
  ⟨rfl, rfl⟩

/-- Claim C2 (amended): when the agent loop or model invocation fails with an
exception, the orchestrator does NOT persist the user's question: it performs
no save, returns the conversation store exactly as it was before the turn, and
reports the pre-turn history length together with the diagnostic in the
`error` field. (Only a successful turn persists the question.) -/
theorem agent_failure_leaves_store_unchanged
    (agent : List Message → Except String PyVal) (st : DbState)
    (q uid e : String)
    (hag : agent (formatted_history (load_chat_history st uid)) = Except.error e) :
    (response_to_json (Except.ok ()) agent st q uid).2.1 = st
    ∧ Effect.saveHistory ∉ (response_to_json (Except.ok ()) agent st q uid).2.2
    ∧ (response_to_json (Except.ok ()) agent st q uid).1.chat_history_length
        = (load_chat_history st uid).length
    ∧ (response_to_json (Except.ok ()) agent st q uid).1.error = some e := by
  simp [response_to_json, hag]

theorem agent_failure_leaves_store_unchanged_witness :
    (response_to_json (Except.ok ()) (fun _ => Except.error "boom")
        ⟨[], Durable.failing⟩ "q2" "u2").2.1 = ⟨[], Durable.failing⟩
    ∧ Effect.saveHistory ∉ (response_to_json (Except.ok ()) (fun _ => Except.error "boom")
        ⟨[], Durable.failing⟩ "q2" "u2").2.2
    ∧ (response_to_json (Except.ok ()) (fun _ => Except.error "boom")
        ⟨[], Durable.failing⟩ "q2" "u2").1.chat_history_length
        = (load_chat_history ⟨[], Durable.failing⟩ "u2").length
    ∧ (response_to_json (Except.ok ()) (fun _ => Except.error "boom")
        ⟨[], Durable.failing⟩ "q2" "u2").1.error = some "boom" :=
  agent_failure_leaves_store_unchanged (fun _ => Except.error "boom")
    ⟨[], Durable.failing⟩ "q2" "u2" "boom" rfl

/-- Claim C3: on a successful (non-reset, non-error) turn the returned
`chat_history_length` is the length of the history loaded at the start of the
turn plus exactly 2, and the persisted history read back afterwards is the
pre-turn history unchanged, with one user message (the question) appended
first and one assistant message (the produced answer) appended second. -/
theorem successful_turn_appends_exactly_two
    (agent : List Message → Except String PyVal) (st : DbState)
    (q uid : String) (raw : PyVal)
    (hag : agent (formatted_history (load_chat_history st uid)) = Except.ok raw) :
    (response_to_json (Except.ok ()) agent st q uid).1.chat_history_length
        = (load_chat_history st uid).length + 2
    ∧ load_chat_history (response_to_json (Except.ok ()) agent st q uid).2.1 uid
        = load_chat_history st uid
          ++ [{ role := "user", content := q },
              { role := "assistant",
                content := (response_to_json (Except.ok ()) agent st q uid).1.output }]
    ∧ (response_to_json (Except.ok ()) agent st q uid).1.error = none := by
  simp [response_to_json, hag, load_after_save]

theorem successful_turn_appends_exactly_two_witness :
    (response_to_json (Except.ok ()) (fun _ => Except.ok (PyVal.str "sure"))
        ⟨[("u1", [⟨"user", "hey"⟩, ⟨"assistant", "hello"⟩])], Durable.unavailable⟩
        "next" "u1").1.chat_history_length
      = (load_chat_history
          ⟨[("u1", [⟨"user", "hey"⟩, ⟨"assistant", "hello"⟩])], Durable.unavailable⟩
          "u1").length + 2
    ∧ load_chat_history
        (response_to_json (Except.ok ()) (fun _ => Except.ok (PyVal.str "sure"))
          ⟨[("u1", [⟨"user", "hey"⟩, ⟨"assistant", "hello"⟩])], Durable.unavailable⟩
          "next" "u1").2.1 "u1"
      = load_chat_history
          ⟨[("u1", [⟨"user", "hey"⟩, ⟨"assistant", "hello"⟩])], Durable.unavailable⟩ "u1"
        ++ [{ role := "user", content := "next" },
            { role := "assistant",
              content := (response_to_json (Except.ok ())
                (fun _ => Except.ok (PyVal.str "sure"))
                ⟨[("u1", [⟨"user", "hey"⟩, ⟨"assistant", "hello"⟩])], Durable.unavailable⟩
                "next" "u1").1.output }]
    ∧ (response_to_json (Except.ok ()) (fun _ => Except.ok (PyVal.str "sure"))
        ⟨[("u1", [⟨"user", "hey"⟩, ⟨"assistant", "hello"⟩])], Durable.unavailable⟩
        "next" "u1").1.error = none :=
  successful_turn_appends_exactly_two (fun _ => Except.ok (PyVal.str "sure"))
    ⟨[("u1", [⟨"user", "hey"⟩, ⟨"assistant", "hello"⟩])], Durable.unavailable⟩
    "next" "u1" (PyVal.str "sure") rfl

/-- Claim C4: the Agent Loop (modelled from spec section 4.4, with the budget
of 5 taken from `max_iterations=5` in `agent.py`) performs at most 5
reasoning/tool-call iterations for any model, and a model that always requests
a tool call makes it terminate in exactly 5 iterations with an exhausted
result rather than looping unboundedly. -/
theorem agent_loop_budget_termination
    (model : List ScratchEntry → ModelStep) (tools : List (String × (String → String)))
    (hm : ∀ scratch, ∃ calls, model scratch = ModelStep.toolCalls calls) :
    agent_loop model tools = (LoopResult.exhausted, 5)
    ∧ ∀ (m : List ScratchEntry → ModelStep) (t : List (String × (String → String))),
        (agent_loop m t).2 ≤ 5 := by
  constructor
  · have h := agent_loop_go_all_tool_calls model tools hm 5 0 []
    simpa [agent_loop] using h
  · intro m t
    have h := agent_loop_go_count_le m t 5 0 []
    simpa [agent_loop] using h

theorem agent_loop_budget_termination_witness :
    agent_loop (fun _ => ModelStep.toolCalls [("search", "latest news")]) []
      = (LoopResult.exhausted, 5) :=
  (agent_loop_budget_termination (fun _ => ModelStep.toolCalls [("search", "latest news")])
    [] (fun _ => ⟨[("search", "latest news")], rfl⟩)).1

/-- Claim C8: for every user and starting store state, issuing the literal
`"/reset"` question (with a valid token and a non-blank user id) is
idempotent: calling it twice in a row returns `chat_history_length = 0` and
the fixed confirmation text both times, each call performs only a history save
(never an agent-loop invocation), and a subsequent history read for that user
returns the empty history. -/
theorem reset_idempotent
    (token : Option String) (api_token : String)
    (toolSetup : Except String Unit) (agent : List Message → Except String PyVal)
    (st : DbState) (uid : String)
    (htok : token = some api_token) (huid : py_strip uid ≠ "") :
    (ask_database token api_token toolSetup agent st ⟨uid, "/reset"⟩).1
      = .ok { user_id := uid, question := "/reset",
              output := "🗑️ Chat history has been reset.",
              chat_history_length := 0, error := none }
    ∧ (ask_database token api_token toolSetup agent st ⟨uid, "/reset"⟩).2.2
      = [Effect.saveHistory]
    ∧ (ask_database token api_token toolSetup agent
        (ask_database token api_token toolSetup agent st ⟨uid, "/reset"⟩).2.1
        ⟨uid, "/reset"⟩).1
      = .ok { user_id := uid, question := "/reset",
              output := "🗑️ Chat history has been reset.",
              chat_history_length := 0, error := none }
    ∧ (ask_database token api_token toolSetup agent
        (ask_database token api_token toolSetup agent st ⟨uid, "/reset"⟩).2.1
        ⟨uid, "/reset"⟩).2.2
      = [Effect.saveHistory]
    ∧ load_chat_history
        (ask_database token api_token toolSetup agent
          (ask_database token api_token toolSetup agent st ⟨uid, "/reset"⟩).2.1
          ⟨uid, "/reset"⟩).2.1 uid
      = [] := by
  subst htok
  have key : ∀ s : DbState,
      ask_database (some api_token) api_token toolSetup agent s ⟨uid, "/reset"⟩
        = (.ok { user_id := uid, question := "/reset",
                 output := "🗑️ Chat history has been reset.",
                 chat_history_length := 0, error := none },
           save_chat_history s uid [], [Effect.saveHistory]) := by
    intro s
    simp only [ask_database]
    rw [if_neg (by simp), if_neg (by decide), if_neg huid]
    simp
  rw [key st]
  simp only []
  rw [key (save_chat_history st uid [])]
  simp [load_after_save]

theorem reset_idempotent_witness :
    (ask_database (some "123456") "123456" (Except.ok ())
        (fun _ => Except.ok (PyVal.str "x")) ⟨[], Durable.unavailable⟩
        ⟨"u", "/reset"⟩).1
      = .ok { user_id := "u", question := "/reset",
              output := "🗑️ Chat history has been reset.",
              chat_history_length := 0, error := none } :=
  (reset_idempotent (some "123456") "123456" (Except.ok ())
    (fun _ => Except.ok (PyVal.str "x")) ⟨[], Durable.unavailable⟩ "u"
    rfl (by decide)).1
